import Mathlib

/-!
Shallow embedding of `src/assignment2/js/bookRooms.js` (the `BookRooms`
module of the cosc212 repository): hotel-room search and booking logic.

Dates are plain strings throughout, compared exactly as JavaScript compares
strings with `<` and `>`: code-unit lexicographic order, embedded here as
`jsLt` over the character list of the string.  jQuery DOM reads are
modelled by passing the form's field values (strings) as arguments; DOM
writes (error messages, the stored checkin/checkout fields, the appended
room options) are modelled as fields of explicit result structures.  XML
documents are modelled as a small rose tree mirroring the DOM, with
jQuery's `find` as pre-order descendant search and `text()` as
concatenation of all descendant text.
-/

namespace BookRooms

/-- JavaScript string comparison `s < t` on lists of characters: code-unit
lexicographic order. -/
def jsLtChars : List Char → List Char → Bool
  | [], [] => false
  | [], _ :: _ => true
  | _ :: _, [] => false
  | a :: as, b :: bs =>
    if a.toNat < b.toNat then true
    else if b.toNat < a.toNat then false
    else jsLtChars as bs

/-- JavaScript `s < t` on strings. -/
def jsLt (s t : String) : Bool :=
  jsLtChars s.data t.data

/-- JavaScript `s > t` on strings, i.e. `t < s`. -/
def jsGt (s t : String) : Bool :=
  jsLt t s

theorem jsLtChars_irrefl (l : List Char) : jsLtChars l l = false := by
  induction l with
  | nil => rfl
  | cons c cs ih => simp [jsLtChars, ih]

theorem jsLtChars_asymm (l l' : List Char) (h : jsLtChars l l' = true) :
    jsLtChars l' l = false := by
  induction l generalizing l' with
  | nil =>
    cases l' with
    | nil => rfl
    | cons b bs => rfl
  | cons a as ih =>
    cases l' with
    | nil => exact absurd h (by simp [jsLtChars])
    | cons b bs =>
      by_cases hab : a.toNat < b.toNat
      · have hba : ¬ b.toNat < a.toNat := Nat.lt_asymm hab
        simp [jsLtChars, hab, hba]
      · by_cases hba : b.toNat < a.toNat
        · simp [jsLtChars, hab, hba] at h
        · simp only [jsLtChars, if_neg hab, if_neg hba] at h
          simp only [jsLtChars, if_neg hab, if_neg hba]
          exact ih bs h

theorem jsLt_irrefl (s : String) : jsLt s s = false :=
  jsLtChars_irrefl s.data

theorem jsLt_asymm (s t : String) (h : jsLt s t = true) : jsLt t s = false :=
  jsLtChars_asymm s.data t.data h

theorem ne_of_jsLt (s t : String) (h : jsLt s t = true) : s ≠ t := by
  intro he
  rw [he, jsLt_irrefl] at h
  cases h

/-- The whitespace characters recognised by JavaScript's string-to-number
coercion and by `$.trim`: space, the control range TAB..CR, NBSP, BOM. -/
def isWS (c : Char) : Bool :=
  c.toNat = 32 ∨ (9 ≤ c.toNat ∧ c.toNat ≤ 13) ∨ c.toNat = 160 ∨ c.toNat = 65279

/-- Strip leading and trailing whitespace from a character list. -/
def trimChars (l : List Char) : List Char :=
  ((l.dropWhile isWS).reverse.dropWhile isWS).reverse

/-- jQuery `$.trim(s)`: strip leading and trailing whitespace. -/
def jsTrim (s : String) : String :=
  (trimChars s.data).asString

/-- Decimal digit value of a character, `none` when not a digit. -/
def digitVal? (c : Char) : Option Nat :=
  if 48 ≤ c.toNat ∧ c.toNat ≤ 57 then some (c.toNat - 48) else none

/-- Value of a digit string, `none` when any character is not a digit. -/
def digitsVal? (acc : Nat) : List Char → Option Nat
  | [] => some acc
  | c :: cs =>
    match digitVal? c with
    | some d => digitsVal? (acc * 10 + d) cs
    | none => none

/-- JavaScript `Number(s)` restricted to the shapes this program meets:
an empty or all-whitespace string converts to 0, a string of decimal digits
(with surrounding whitespace allowed) converts to its value, and any other
string converts to NaN, modelled as `none`. -/
def jsToNum? (s : String) : Option Nat :=
  match trimChars s.data with
  | [] => some 0
  | t => digitsVal? 0 t

/-- A hotel room record, as produced by `parseRoomXML`:
`{ number, type, price }`, all text fields. -/
structure Room where
  number : String
  type : String
  price : String
deriving DecidableEq

/-- An existing booking record, as produced by `parseBookingXML`:
`{ number, checkin, checkout }`, dates as yyyy-mm-dd strings. -/
structure Booking where
  number : String
  checkin : String
  checkout : String
deriving DecidableEq

/-- A pending booking, as built by `submitBookRoom`:
a booking plus the trimmed guest name. -/
structure PendingBooking where
  number : String
  checkin : String
  checkout : String
  name : String
deriving DecidableEq

/-- The padding step of `makeDateFromXML`: `if (dd < 10) { dd = '0' + dd; }`.
The JavaScript `<` coerces the string to a number; a NaN comparison is
false, so a non-numeric string is left unchanged. -/
def padDM (s : String) : String :=
  match jsToNum? s with
  | some n => if n < 10 then "0" ++ s else s
  | none => s

/-- `makeDateFromXML`, after its three `text()` reads: given the texts of
the `day`, `month` and `year` elements, pads day and month and returns
`yyyy + '-' + mm + '-' + dd`. -/
def makeDateFromXML (dd mm yyyy : String) : String :=
  yyyy ++ "-" ++ padDM mm ++ "-" ++ padDM dd

/-- The padding step of `getTodaysDate`, where day and month are numbers
taken from the `Date` object. -/
def pad2 (n : Nat) : String :=
  if n < 10 then "0" ++ Nat.repr n else Nat.repr n

/-- `getTodaysDate`, with the clock readings `getDate()`, `getMonth() + 1`
and `getFullYear()` passed in as arguments. -/
def getTodaysDate (dd mm yyyy : Nat) : String :=
  Nat.repr yyyy ++ "-" ++ pad2 mm ++ "-" ++ pad2 dd

/-- `checkAvailable(room, checkin, checkout, bookings)`: linear scan; for
each booking whose number matches `room`, the overlap test
`bookings[i].checkin < checkout && bookings[i].checkout > checkin` returns
false immediately; true once the scan finishes. -/
def checkAvailable (room checkin checkout : String) : List Booking → Bool
  | [] => true
  | b :: rest =>
    if b.number = room then
      if jsLt b.checkin checkout && jsGt b.checkout checkin then false
      else checkAvailable room checkin checkout rest
    else checkAvailable room checkin checkout rest

theorem checkAvailable_eq_true_iff (room checkin checkout : String)
    (bookings : List Booking) :
    checkAvailable room checkin checkout bookings = true ↔
      ¬ ∃ b ∈ bookings, b.number = room ∧
        jsLt b.checkin checkout = true ∧ jsGt b.checkout checkin = true := by
  induction bookings with
  | nil => simp [checkAvailable]
  | cons b rest ih =>
    unfold checkAvailable
    by_cases hn : b.number = room
    · rw [if_pos hn]
      by_cases hov : (jsLt b.checkin checkout && jsGt b.checkout checkin) = true
      · rw [if_pos hov]
        rw [Bool.and_eq_true] at hov
        refine iff_of_false (by simp) (not_not_intro ?_)
        exact ⟨b, List.mem_cons_self b rest, hn, hov.1, hov.2⟩
      · rw [if_neg hov, ih]
        rw [Bool.and_eq_true] at hov
        constructor
        · rintro h ⟨c, hc, hcf⟩
          rcases List.mem_cons.mp hc with rfl | hmem
          · exact hov ⟨hcf.2.1, hcf.2.2⟩
          · exact h ⟨c, hmem, hcf⟩
        · rintro h ⟨c, hc, hcf⟩
          exact h ⟨c, List.mem_cons_of_mem b hc, hcf⟩
    · rw [if_neg hn, ih]
      constructor
      · rintro h ⟨c, hc, hcf⟩
        rcases List.mem_cons.mp hc with rfl | hmem
        · exact hn hcf.1
        · exact h ⟨c, hmem, hcf⟩
      · rintro h ⟨c, hc, hcf⟩
        exact h ⟨c, List.mem_cons_of_mem b hc, hcf⟩

/-- An XML DOM fragment: an element with a tag and children, or a text
node.  This is the shape jQuery traverses in `parseRoomXML`,
`parseBookingXML` and `makeDateFromXML`. -/
inductive XML where
  | text (s : String)
  | elem (tag : String) (children : List XML)

/-- jQuery `find(t)` over a list of sibling nodes: all descendant elements
with tag `t`, in document (pre-order) order. -/
def findTagList (t : String) : List XML → List XML
  | [] => []
  | XML.text _ :: xs => findTagList t xs
  | XML.elem tag cs :: xs =>
    (if tag = t then [XML.elem tag cs] else []) ++ findTagList t cs ++
      findTagList t xs

/-- jQuery `text()` over a list of sibling nodes: concatenation of all
text content in document order. -/
def textOfList : List XML → String
  | [] => ""
  | XML.text s :: xs => s ++ textOfList xs
  | XML.elem _ cs :: xs => textOfList cs ++ textOfList xs

/-- jQuery `$(x).find(t)`: descendant elements of `x` with tag `t`. -/
def XML.findTag (t : String) : XML → List XML
  | XML.text _ => []
  | XML.elem _ cs => findTagList t cs

/-- jQuery `$(x).text()`: all text content of `x`. -/
def XML.textOf : XML → String
  | XML.text s => s
  | XML.elem _ cs => textOfList cs

/-- jQuery `$(set[0]).text()`: text of the first matched node, and the
empty string when the set is empty (`$(undefined).text() === ""`). -/
def textOfFirst : List XML → String
  | [] => ""
  | x :: _ => x.textOf

/-- `makeDateFromXML(xmlDate)` on the (possibly absent) first node of a
jQuery match set: reads the texts of the `day`, `month` and `year`
descendants, each empty when absent, and builds the date string. -/
def makeDateFromXMLOpt : Option XML → String
  | none => makeDateFromXML "" "" ""
  | some x =>
    makeDateFromXML (textOfFirst (XML.findTag "day" x))
      (textOfFirst (XML.findTag "month" x))
      (textOfFirst (XML.findTag "year" x))

/-- The body of `parseBookingXML`'s `each` callback: one booking record
from one `booking` element. -/
def parseBooking1 (b : XML) : Booking :=
  { number := textOfFirst (XML.findTag "number" b)
    checkin := makeDateFromXMLOpt (XML.findTag "checkin" b).head?
    checkout := makeDateFromXMLOpt (XML.findTag "checkout" b).head? }

/-- `parseBookingXML(data)`: one booking record per `booking` descendant,
in document order. -/
def parseBookingXML (data : XML) : List Booking :=
  (XML.findTag "booking" data).map parseBooking1

/-- The body of `parseRoomXML`'s `each` callback: one room record from one
`hotelRoom` element. -/
def parseRoom1 (r : XML) : Room :=
  { number := textOfFirst (XML.findTag "number" r)
    type := textOfFirst (XML.findTag "roomType" r)
    price := textOfFirst (XML.findTag "pricePerNight" r) }

/-- `parseRoomXML(data)`: one room record per `hotelRoom` descendant, in
document order. -/
def parseRoomXML (data : XML) : List Room :=
  (XML.findTag "hotelRoom" data).map parseRoom1

/-- `getDateFromForm(dayElementID, monthElementID, yearElementID)` with the
three field values passed in: `yyyy + "-" + mm + "-" + dd`. -/
def getDateFromForm (dd mm yyyy : String) : String :=
  yyyy ++ "-" ++ mm ++ "-" ++ dd

/-- The checkin block of `submitFindRoom`: the error message written to
`#checkinError` and whether the block left `isValid` alone. -/
def validateCheckin (checkin today : String) : String × Bool :=
  if checkin = "" then ("You must enter a check in date.", false)
  else if jsLt checkin today then ("You can't book in the past.", false)
  else ("", true)

/-- The checkout block of `submitFindRoom`: the error message written to
`#checkoutError` and whether the block left `isValid` alone. -/
def validateCheckout (checkout checkin : String) : String × Bool :=
  if checkout = "" then ("You must enter a check out date.", false)
  else if jsLt checkout checkin then
    ("You can't check out before you check in.", false)
  else if checkout = checkin then ("You must stay at least one night.", false)
  else ("", true)

/-- The observable outcome of `submitFindRoom`: the two error texts, the
final `isValid` flag (which gates `setupBookRoom`), and the handler's
return value. -/
structure FindRoomResult where
  checkinError : String
  checkoutError : String
  isValid : Bool
  ret : Bool
deriving DecidableEq

/-- `submitFindRoom()`, with the six date-select values and today's date
passed in.  `isValid` starts true and each validation block may clear it;
the function always returns `false`. -/
def submitFindRoom (cidd cimm ciyy codd comm coyy today : String) :
    FindRoomResult :=
  let checkin := getDateFromForm cidd cimm ciyy
  let ci := validateCheckin checkin today
  let checkout := getDateFromForm codd comm coyy
  let co := validateCheckout checkout checkin
  { checkinError := ci.1
    checkoutError := co.1
    isValid := ci.2 && co.2
    ret := false }

/-- The filtering loop of `setupBookRoom`, run once both XML files have
loaded: for each room of the catalog, in order, append it to the
`#roomSelection` options when `checkAvailable` accepts it.  The result is
the list of rooms offered to the guest. -/
def setupBookRoom (checkin checkout : String) (rooms : List Room)
    (bookings : List Booking) : List Room :=
  rooms.foldl
    (fun acc room =>
      if checkAvailable room.number checkin checkout bookings then
        acc ++ [room]
      else acc)
    []

/-- Modelled from the spec: the Local Booking Store's `load` operation
(`loadLocalBookings` lives in the cookie helper, which is not part of this
repository's sources).  Reading returns the stored list. -/
def loadLocalBookings (store : List PendingBooking) : List PendingBooking :=
  store

/-- Modelled from the spec: the Local Booking Store's `save` operation
(`saveLocalBookings` lives in the cookie helper, which is not part of this
repository's sources).  Saving overwrites the stored list wholesale. -/
def saveLocalBookings (_store l : List PendingBooking) :
    List PendingBooking :=
  l

/-- One access to the Local Booking Store, for tracking which accesses a
run of `submitBookRoom` performs. -/
inductive StoreOp where
  | load
  | save (bookings : List PendingBooking)
deriving DecidableEq

/-- The observable outcome of `submitBookRoom`: the name-error text, the
handler's return value, the store contents afterwards, and the store
accesses performed. -/
structure BookRoomResult where
  nameError : String
  ret : Bool
  store : List PendingBooking
  ops : List StoreOp
deriving DecidableEq

/-- `submitBookRoom()`, with the form fields (`#roomSelection`,
`#checkinDate`, `#checkoutDate`, `#bookingName`) and the current store
contents passed in.  An empty trimmed name is rejected with an error and
return value `false`; otherwise the new pending booking is pushed onto the
loaded list, the list is saved, and the handler returns `true`. -/
def submitBookRoom (room checkin checkout rawName : String)
    (store : List PendingBooking) : BookRoomResult :=
  let name := jsTrim rawName
  if name = "" then
    { nameError := "You must enter a booking name"
      ret := false
      store := store
      ops := [] }
  else
    let localBookings := loadLocalBookings store
    let newList := localBookings ++ [⟨room, checkin, checkout, name⟩]
    { nameError := ""
      ret := true
      store := saveLocalBookings store newList
      ops := [StoreOp.load, StoreOp.save newList] }

theorem getDateFromForm_ne_empty (dd mm yyyy : String) :
    getDateFromForm dd mm yyyy ≠ "" := by
  intro h
  have hl : (getDateFromForm dd mm yyyy).length = 0 := by rw [h]; rfl
  rw [getDateFromForm] at hl
  simp only [String.length_append] at hl
  have hdash : ("-" : String).length = 1 := rfl
  omega

theorem validateCheckin_snd_iff (checkin today : String) :
    (validateCheckin checkin today).2 = true ↔
      (validateCheckin checkin today).1 = "" := by
  unfold validateCheckin
  split_ifs <;> simp

theorem validateCheckout_snd_iff (checkout checkin : String) :
    (validateCheckout checkout checkin).2 = true ↔
      (validateCheckout checkout checkin).1 = "" := by
  unfold validateCheckout
  split_ifs <;> simp

theorem foldl_append_eq_filter {α : Type} (p : α → Bool) (l acc : List α) :
    l.foldl (fun acc x => if p x then acc ++ [x] else acc) acc =
      acc ++ l.filter p := by
  induction l generalizing acc with
  | nil => simp
  | cons x xs ih =>
    by_cases h : p x <;> simp [List.foldl, h, List.filter_cons, ih]

theorem pad2_length (d : Nat) (h : d < 100) : (pad2 d).length = 2 := by
  have hall : ∀ d, d < 100 → (pad2 d).length = 2 := by decide
  exact hall d h

theorem padDM_repr_length (d : Nat) (h : d < 100) :
    (padDM (Nat.repr d)).length = 2 := by
  have hall : ∀ d, d < 100 → (padDM (Nat.repr d)).length = 2 := by decide
  exact hall d h

end BookRooms

open BookRooms

/-- C1: `checkAvailable(room, checkin, checkout, bookings)` returns true iff
no booking in the list has that room number and satisfies the half-open
overlap test `existing.checkin < checkout && existing.checkout > checkin`
(JavaScript string comparison, embedded as `jsLt`); in particular a
back-to-back pair — an existing checkout equal to the new checkin — is not
an overlap, shown on the spec's own example: a booking for
("2024-01-10", "2024-01-15") leaves the range ("2024-01-15", "2024-01-18")
available. -/
theorem C1_checkAvailable_iff_no_overlap :
    (∀ (room checkin checkout : String) (bookings : List Booking),
      checkAvailable room checkin checkout bookings = true ↔
        ¬ ∃ b ∈ bookings, b.number = room ∧
          jsLt b.checkin checkout = true ∧ jsGt b.checkout checkin = true) ∧
    checkAvailable "1" "2024-01-15" "2024-01-18"
      [⟨"1", "2024-01-10", "2024-01-15"⟩] = true := by
  constructor
  · exact checkAvailable_eq_true_iff
  · decide

/-- C2 counterexample: the formatter does not pad to exactly two digits on
every numeric-string input.  The numeric string "05" (value 5, less than
10) is padded again, so day="05", month="3", year="2024" yields
"2024-03-005", which has 11 characters, not 10. -/
theorem C2_counterexample_leading_zero :
    jsToNum? "05" = some 5 ∧
    makeDateFromXML "05" "3" "2024" = "2024-03-005" ∧
    ("2024-03-005" : String).length ≠ 10 := by
  refine ⟨by decide, by decide, by decide⟩

/-- C2 amended: for day and month inputs that are numbers below 100
(`getTodaysDate`), or numeric strings in canonical decimal form with value
below 100 (`makeDateFromXML`), and a year whose string form has exactly 4
characters, the formatted date has exactly 4+1+2+1+2 = 10 characters; the
spec's example day=5, month=3, year=2024 gives "2024-03-05".  The original
claim fails only for numeric strings with leading zeros, such as "05",
which the formatter pads again. -/
theorem C2_date_padding_amended :
    (∀ dd mm yyyy : Nat, dd < 100 → mm < 100 → (Nat.repr yyyy).length = 4 →
      (getTodaysDate dd mm yyyy).length = 10) ∧
    (∀ (dd mm : Nat) (yyyy : String), dd < 100 → mm < 100 →
      yyyy.length = 4 →
      (makeDateFromXML (Nat.repr dd) (Nat.repr mm) yyyy).length = 10) ∧
    makeDateFromXML "5" "3" "2024" = "2024-03-05" ∧
    getTodaysDate 5 3 2024 = "2024-03-05" := by
  refine ⟨?_, ?_, by decide, by decide⟩
  · intro dd mm yyyy hdd hmm hy
    rw [getTodaysDate]
    simp only [String.length_append]
    have h1 : ("-" : String).length = 1 := rfl
    have h2 := pad2_length dd hdd
    have h3 := pad2_length mm hmm
    omega
  · intro dd mm yyyy hdd hmm hy
    rw [makeDateFromXML]
    simp only [String.length_append]
    have h1 : ("-" : String).length = 1 := rfl
    have h2 := padDM_repr_length dd hdd
    have h3 := padDM_repr_length mm hmm
    omega

/-- C2 witness: the amended theorem applied at day=5, month=3, year=2024,
in both the number form and the canonical-string form. -/
theorem C2_date_padding_amended_witness :
    (getTodaysDate 5 3 2024).length = 10 ∧
    (makeDateFromXML (Nat.repr 5) (Nat.repr 3) "2024").length = 10 :=
  ⟨C2_date_padding_amended.1 5 3 2024 (by decide) (by decide) (by decide),
   C2_date_padding_amended.2.1 5 3 "2024" (by decide) (by decide) (by decide)⟩

/-- C3: the missing-checkin branch of `submitFindRoom` is unreachable:
`getDateFromForm` always returns `yyyy + "-" + mm + "-" + dd`, a string
that contains two hyphens and hence is never empty (never falsy), so
`#checkinError` is never set to "You must enter a check in date.".  With
all six selects empty the user instead sees "You can't book in the past."
(the checkin computes to "--", which sorts before any yyyy-mm-dd date). -/
theorem C3_missing_checkin_branch_unreachable :
    (∀ cidd cimm ciyy codd comm coyy today : String,
      (submitFindRoom cidd cimm ciyy codd comm coyy today).checkinError ≠
        "You must enter a check in date.") ∧
    (submitFindRoom "" "" "" "" "" "" "2024-06-01").checkinError =
      "You can't book in the past." := by
  constructor
  · intro cidd cimm ciyy codd comm coyy today
    show (validateCheckin (getDateFromForm cidd cimm ciyy) today).1 ≠ _
    rw [validateCheckin, if_neg (getDateFromForm_ne_empty cidd cimm ciyy)]
    split_ifs <;> decide
  · decide

/-- C4 counterexample: `submitBookRoom` does not always return the value
that suppresses the default submit behavior (`false` for a jQuery
handler): on a successful submission (non-empty trimmed name) it returns
`true`. -/
theorem C4_counterexample_true_on_success :
    (submitBookRoom "1" "2024-06-01" "2024-06-02" "Alice" []).ret ≠ false := by
  decide

/-- C4 amended: `submitFindRoom` always returns `false`, suppressing the
default submit behavior; `submitBookRoom` returns `false` (suppressing)
exactly when validation fails (empty trimmed name) and returns `true` on
success, as its own doc comment states, which does not suppress the
default. -/
theorem C4_return_values_amended :
    (∀ cidd cimm ciyy codd comm coyy today : String,
      (submitFindRoom cidd cimm ciyy codd comm coyy today).ret = false) ∧
    (∀ (room checkin checkout rawName : String)
      (store : List PendingBooking),
      (submitBookRoom room checkin checkout rawName store).ret = false ↔
        jsTrim rawName = "") := by
  constructor
  · intro _ _ _ _ _ _ _
    rfl
  · intro room checkin checkout rawName store
    rw [submitBookRoom]
    by_cases h : jsTrim rawName = "" <;> simp [h]

/-- C5: for present dates (assembled by `getDateFromForm`, hence never
empty), `submitFindRoom` rejects a checkin earlier than today with
"You can't book in the past.", a checkout earlier than the checkin with
"You can't check out before you check in.", a checkout equal to the
checkin with "You must stay at least one night.", and raises no date error
when today ≤ checkin < checkout (comparisons in JavaScript string order,
`jsLt`). -/
theorem C5_find_room_date_rules
    (cidd cimm ciyy codd comm coyy today : String) :
    (jsLt (getDateFromForm cidd cimm ciyy) today = true →
      (submitFindRoom cidd cimm ciyy codd comm coyy today).checkinError =
        "You can't book in the past." ∧
      (submitFindRoom cidd cimm ciyy codd comm coyy today).isValid = false) ∧
    (jsLt (getDateFromForm codd comm coyy)
        (getDateFromForm cidd cimm ciyy) = true →
      (submitFindRoom cidd cimm ciyy codd comm coyy today).checkoutError =
        "You can't check out before you check in." ∧
      (submitFindRoom cidd cimm ciyy codd comm coyy today).isValid = false) ∧
    (getDateFromForm codd comm coyy = getDateFromForm cidd cimm ciyy →
      (submitFindRoom cidd cimm ciyy codd comm coyy today).checkoutError =
        "You must stay at least one night." ∧
      (submitFindRoom cidd cimm ciyy codd comm coyy today).isValid = false) ∧
    (jsLt (getDateFromForm cidd cimm ciyy) today = false →
     jsLt (getDateFromForm cidd cimm ciyy)
        (getDateFromForm codd comm coyy) = true →
      (submitFindRoom cidd cimm ciyy codd comm coyy today).checkinError =
        "" ∧
      (submitFindRoom cidd cimm ciyy codd comm coyy today).checkoutError =
        "" ∧
      (submitFindRoom cidd cimm ciyy codd comm coyy today).isValid = true) := by
  have hci := getDateFromForm_ne_empty cidd cimm ciyy
  have hco := getDateFromForm_ne_empty codd comm coyy
  refine ⟨?_, ?_, ?_, ?_⟩
  · intro h
    show (validateCheckin _ _).1 = _ ∧
      ((validateCheckin _ _).2 && (validateCheckout _ _).2) = false
    rw [validateCheckin, if_neg hci, if_pos h]
    exact ⟨rfl, rfl⟩
  · intro h
    show (validateCheckout _ _).1 = _ ∧
      ((validateCheckin _ _).2 && (validateCheckout _ _).2) = false
    rw [validateCheckout, if_neg hco, if_pos h]
    exact ⟨rfl, Bool.and_false _⟩
  · intro h
    show (validateCheckout _ _).1 = _ ∧
      ((validateCheckin _ _).2 && (validateCheckout _ _).2) = false
    have hlt : jsLt (getDateFromForm codd comm coyy)
        (getDateFromForm cidd cimm ciyy) = false := by
      rw [h]; exact jsLt_irrefl _
    rw [validateCheckout, if_neg hco, if_neg (by simp [hlt]), if_pos h]
    exact ⟨rfl, Bool.and_false _⟩
  · intro h1 h2
    show (validateCheckin _ _).1 = "" ∧ (validateCheckout _ _).1 = "" ∧
      ((validateCheckin _ _).2 && (validateCheckout _ _).2) = true
    have hasym : jsLt (getDateFromForm codd comm coyy)
        (getDateFromForm cidd cimm ciyy) = false := jsLt_asymm _ _ h2
    have hne : getDateFromForm codd comm coyy ≠
        getDateFromForm cidd cimm ciyy :=
      (ne_of_jsLt _ _ h2).symm
    rw [validateCheckin, if_neg hci, if_neg (by simp [h1]),
      validateCheckout, if_neg hco, if_neg (by simp [hasym]), if_neg hne]
    exact ⟨rfl, rfl, rfl⟩

/-- C5 witness: the rules applied at concrete dates with today =
"2024-06-03": a past checkin "2024-06-01" with checkout "2024-05-30"
before it, an equal pair "2024-06-05"/"2024-06-05", and a valid pair
"2024-06-05" < "2024-06-07". -/
theorem C5_find_room_date_rules_witness :
    ((submitFindRoom "01" "06" "2024" "30" "05" "2024"
        "2024-06-03").checkinError = "You can't book in the past." ∧
      (submitFindRoom "01" "06" "2024" "30" "05" "2024"
        "2024-06-03").isValid = false) ∧
    ((submitFindRoom "01" "06" "2024" "30" "05" "2024"
        "2024-06-03").checkoutError =
        "You can't check out before you check in." ∧
      (submitFindRoom "01" "06" "2024" "30" "05" "2024"
        "2024-06-03").isValid = false) ∧
    ((submitFindRoom "05" "06" "2024" "05" "06" "2024"
        "2024-06-03").checkoutError = "You must stay at least one night." ∧
      (submitFindRoom "05" "06" "2024" "05" "06" "2024"
        "2024-06-03").isValid = false) ∧
    ((submitFindRoom "05" "06" "2024" "07" "06" "2024"
        "2024-06-03").checkinError = "" ∧
      (submitFindRoom "05" "06" "2024" "07" "06" "2024"
        "2024-06-03").checkoutError = "" ∧
      (submitFindRoom "05" "06" "2024" "07" "06" "2024"
        "2024-06-03").isValid = true) :=
  ⟨(C5_find_room_date_rules "01" "06" "2024" "30" "05" "2024"
      "2024-06-03").1 (by decide),
   (C5_find_room_date_rules "01" "06" "2024" "30" "05" "2024"
      "2024-06-03").2.1 (by decide),
   (C5_find_room_date_rules "05" "06" "2024" "05" "06" "2024"
      "2024-06-03").2.2.1 (by decide),
   (C5_find_room_date_rules "05" "06" "2024" "07" "06" "2024"
      "2024-06-03").2.2.2 (by decide) (by decide)⟩

/-- C6: the checkin and checkout validations of `submitFindRoom` run
independently — at a concrete input both error messages are set in the
same submission — and the overall `isValid` flag that gates the room
search is true exactly when both checks left their error text empty. -/
theorem C6_independent_checks_conjunction :
    (∀ cidd cimm ciyy codd comm coyy today : String,
      (submitFindRoom cidd cimm ciyy codd comm coyy today).isValid = true ↔
        ((submitFindRoom cidd cimm ciyy codd comm coyy
            today).checkinError = "" ∧
         (submitFindRoom cidd cimm ciyy codd comm coyy
            today).checkoutError = "")) ∧
    ((submitFindRoom "01" "06" "2024" "30" "05" "2024"
        "2024-06-03").checkinError ≠ "" ∧
     (submitFindRoom "01" "06" "2024" "30" "05" "2024"
        "2024-06-03").checkoutError ≠ "") := by
  constructor
  · intro cidd cimm ciyy codd comm coyy today
    show ((validateCheckin _ _).2 && (validateCheckout _ _).2) = true ↔ _
    rw [Bool.and_eq_true, validateCheckin_snd_iff, validateCheckout_snd_iff]
    exact Iff.rfl
  · exact ⟨by decide, by decide⟩

/-- C7: `submitBookRoom` rejects a guest name that is empty after trimming
(error "You must enter a booking name", return `false`) and accepts a name
that is non-empty after trimming, clearing the error, returning `true`,
and appending the pending booking (with the trimmed name) to the local
store. -/
theorem C7_book_room_name_validation (room checkin checkout rawName : String)
    (store : List PendingBooking) :
    (jsTrim rawName = "" →
      (submitBookRoom room checkin checkout rawName store).nameError =
        "You must enter a booking name" ∧
      (submitBookRoom room checkin checkout rawName store).ret = false ∧
      (submitBookRoom room checkin checkout rawName store).store = store) ∧
    (jsTrim rawName ≠ "" →
      (submitBookRoom room checkin checkout rawName store).nameError = "" ∧
      (submitBookRoom room checkin checkout rawName store).ret = true ∧
      (submitBookRoom room checkin checkout rawName store).store =
        store ++ [⟨room, checkin, checkout, jsTrim rawName⟩]) := by
  constructor
  · intro h
    rw [submitBookRoom]
    simp [h]
  · intro h
    rw [submitBookRoom]
    simp [h, loadLocalBookings, saveLocalBookings]

/-- C7 witness: the all-whitespace name "   " is rejected with the error
and an unchanged store; the name " Alice " is accepted and the pending
booking with the trimmed name "Alice" is appended. -/
theorem C7_book_room_name_validation_witness :
    ((submitBookRoom "1" "2024-06-05" "2024-06-07" "   " []).nameError =
        "You must enter a booking name" ∧
      (submitBookRoom "1" "2024-06-05" "2024-06-07" "   " []).ret = false ∧
      (submitBookRoom "1" "2024-06-05" "2024-06-07" "   " []).store = []) ∧
    ((submitBookRoom "1" "2024-06-05" "2024-06-07" " Alice " []).nameError =
        "" ∧
      (submitBookRoom "1" "2024-06-05" "2024-06-07" " Alice " []).ret =
        true ∧
      (submitBookRoom "1" "2024-06-05" "2024-06-07" " Alice " []).store =
        [⟨"1", "2024-06-05", "2024-06-07", jsTrim " Alice "⟩]) :=
  ⟨(C7_book_room_name_validation "1" "2024-06-05" "2024-06-07" "   " []).1
      (by decide),
   (C7_book_room_name_validation "1" "2024-06-05" "2024-06-07" " Alice "
      []).2 (by decide)⟩

/-- C8 counterexample: a malformed record is still produced, but its
affected fields are not all the empty string.  A `booking` element with a
`number` but no `checkin`/`checkout` children parses to a record whose
date fields are "-0-0" (the separators plus the zero-padding of the empty
day and month), not "". -/
theorem C8_counterexample_missing_date :
    parseBookingXML (XML.elem "bookings"
        [XML.elem "booking" [XML.elem "number" [XML.text "1"]]]) =
      [{ number := "1", checkin := "-0-0", checkout := "-0-0" }] ∧
    ("-0-0" : String) ≠ "" := by
  constructor
  · simp [parseBookingXML, XML.findTag, findTagList, parseBooking1,
      textOfFirst, XML.textOf, textOfList, makeDateFromXMLOpt]
    decide
  · decide

/-- C8 amended: `parseRoomXML` and `parseBookingXML` are total and never
drop a record — one record per matching element.  A missing room sub-field
and a missing booking `number` degrade to the empty string; a missing
`checkin` or `checkout` element degrades to the string "-0-0" built by the
date formatter from empty parts, rather than to the empty string. -/
theorem C8_permissive_parse_amended :
    (∀ data : XML,
      (parseRoomXML data).length = (XML.findTag "hotelRoom" data).length ∧
      (parseBookingXML data).length =
        (XML.findTag "booking" data).length) ∧
    (∀ r : XML, XML.findTag "number" r = [] → (parseRoom1 r).number = "") ∧
    (∀ r : XML, XML.findTag "roomType" r = [] → (parseRoom1 r).type = "") ∧
    (∀ r : XML, XML.findTag "pricePerNight" r = [] →
      (parseRoom1 r).price = "") ∧
    (∀ b : XML, XML.findTag "number" b = [] →
      (parseBooking1 b).number = "") ∧
    (∀ b : XML, XML.findTag "checkin" b = [] →
      (parseBooking1 b).checkin = "-0-0") ∧
    (∀ b : XML, XML.findTag "checkout" b = [] →
      (parseBooking1 b).checkout = "-0-0") := by
  refine ⟨?_, ?_, ?_, ?_, ?_, ?_, ?_⟩
  · intro data
    exact ⟨List.length_map _ _, List.length_map _ _⟩
  · intro r h; simp [parseRoom1, h, textOfFirst]
  · intro r h; simp [parseRoom1, h, textOfFirst]
  · intro r h; simp [parseRoom1, h, textOfFirst]
  · intro b h; simp [parseBooking1, h, textOfFirst]
  · intro b h; simp [parseBooking1, h]; decide
  · intro b h; simp [parseBooking1, h]; decide

/-- C8 witness: the amended theorem applied to concrete malformed
elements: a text node parsed as a room yields an all-empty record, and a
childless `booking` element yields "-0-0" dates. -/
theorem C8_permissive_parse_amended_witness :
    (parseRoom1 (XML.text "junk")).number = "" ∧
    (parseBooking1 (XML.elem "booking" [])).checkin = "-0-0" ∧
    (parseBooking1 (XML.elem "booking" [])).checkout = "-0-0" :=
  ⟨C8_permissive_parse_amended.2.1 (XML.text "junk") rfl,
   C8_permissive_parse_amended.2.2.2.2.2.1 (XML.elem "booking" [])
     (by simp [XML.findTag, findTagList]),
   C8_permissive_parse_amended.2.2.2.2.2.2 (XML.elem "booking" [])
     (by simp [XML.findTag, findTagList])⟩

/-- C9: the room-search filtering step yields exactly the rooms the
availability check accepts, in catalog order (it equals a filter of the
catalog, membership matches acceptance, and the result is a sublist of the
catalog); on a catalog of 3 rooms with room "2" fully booked for the
queried range, exactly rooms "1" and "3" remain, in order. -/
theorem C9_room_search_filtering :
    (∀ (rooms : List Room) (bookings : List Booking)
      (checkin checkout : String),
      setupBookRoom checkin checkout rooms bookings =
        rooms.filter
          (fun room => checkAvailable room.number checkin checkout
            bookings) ∧
      (∀ r : Room, r ∈ setupBookRoom checkin checkout rooms bookings ↔
        r ∈ rooms ∧
          checkAvailable r.number checkin checkout bookings = true) ∧
      List.Sublist (setupBookRoom checkin checkout rooms bookings) rooms) ∧
    setupBookRoom "2024-01-10" "2024-01-15"
      [⟨"1", "single", "100"⟩, ⟨"2", "double", "150"⟩,
        ⟨"3", "suite", "200"⟩]
      [⟨"2", "2024-01-01", "2024-02-01"⟩] =
      [⟨"1", "single", "100"⟩, ⟨"3", "suite", "200"⟩] := by
  constructor
  · intro rooms bookings checkin checkout
    have heq : setupBookRoom checkin checkout rooms bookings =
        rooms.filter
          (fun room => checkAvailable room.number checkin checkout
            bookings) := by
      rw [setupBookRoom, foldl_append_eq_filter]
      rfl
    refine ⟨heq, ?_, ?_⟩
    · intro r
      rw [heq, List.mem_filter]
    · rw [heq]
      exact List.filter_sublist rooms
  · decide

/-- C10: when `submitBookRoom` rejects the submission (empty trimmed
name), the Local Booking Store is neither read nor written — no store
operation is performed and the stored list is unchanged. -/
theorem C10_rejected_submission_leaves_store (room checkin checkout
    rawName : String) (store : List PendingBooking) :
    jsTrim rawName = "" →
      (submitBookRoom room checkin checkout rawName store).ops = [] ∧
      (submitBookRoom room checkin checkout rawName store).store = store := by
  intro h
  rw [submitBookRoom]
  simp [h]

/-- C10 witness: the theorem applied to the all-whitespace name "   " with
a non-empty store: no store operations, store unchanged. -/
theorem C10_rejected_submission_leaves_store_witness :
    (submitBookRoom "2" "2024-06-05" "2024-06-07" "   "
      [⟨"9", "a", "b", "Bob"⟩]).ops = [] ∧
    (submitBookRoom "2" "2024-06-05" "2024-06-07" "   "
      [⟨"9", "a", "b", "Bob"⟩]).store = [⟨"9", "a", "b", "Bob"⟩] :=
  C10_rejected_submission_leaves_store "2" "2024-06-05" "2024-06-07" "   "
    [⟨"9", "a", "b", "Bob"⟩] (by decide)
